import Mathlib

/-!
Verification of the refund-agent multi-agent core against its code:
the eligibility engine (src/agents/transaction_agent.py), the task-handler
wrapper (src/agents/base_agent.py), the coordinator dispatch / assembly /
order-id extraction (src/agents/coordinator.py), the response protocol
(src/models/protocols.py, src/models/schemas.py) and the embeddings cache
(src/tools.py).  Python exceptions are modelled with `Except String`;
machine timestamps are `Int` seconds; Python dicts keyed by strings are
association lists.
-/

namespace RefundAgent

/-! ## Character and string helpers (models of Python str methods) -/

/-- Model of Python `str.upper` on one character, for the ASCII letters that
occur in the order statuses and order ids handled by the code. -/
def upperChar (c : Char) : Char :=
  if 'a' ≤ c ∧ c ≤ 'z' then Char.ofNat (c.toNat - 32) else c

/-- Model of Python `str.lower` on one character; ASCII letters plus the
accented letter appearing in the Spanish keyword of the extraction regexes. -/
def lowerChar (c : Char) : Char :=
  if 'A' ≤ c ∧ c ≤ 'Z' then Char.ofNat (c.toNat + 32)
  else if c = 'Ú' then 'ú' else c

/-- Model of Python `str.upper` (`order_data.get("status", "").upper()`). -/
def upperStr (s : String) : String := ⟨s.data.map upperChar⟩

/-- Model of Python `str.lower`. -/
def lowerStr (s : String) : String := ⟨s.data.map lowerChar⟩

/-- Model of Python `str.strip` (whitespace stripped from both ends). -/
def stripStr (s : String) : String :=
  ⟨((s.data.dropWhile Char.isWhitespace).reverse.dropWhile Char.isWhitespace).reverse⟩

/-- Lookup in an association list modelling a Python dict keyed by strings. -/
def lookupKey {V : Type} (k : String) : List (String × V) → Option V
  | [] => none
  | (k2, v) :: t => if k2 = k then some v else lookupKey k t

/-- Remove the entry with key `k` from an association list. -/
def eraseKey {V : Type} (k : String) : List (String × V) → List (String × V)
  | [] => []
  | (k2, v) :: t => if k2 = k then eraseKey k t else (k2, v) :: eraseKey k t

/-! ## Eligibility engine (transaction_agent.py `_check_eligibility`)

The raw `purchase_date` value in the order dict either parses to a usable
timestamp (a `datetime`, via `datetime.fromisoformat` or already a datetime
object) or makes the date parsing / date arithmetic raise with some message.
`PDateVal` records exactly that outcome; a missing (or empty) value is
`Option.none` at the use site. -/

inductive PDateVal where
  /-- Date parsing or the subsequent date arithmetic raises with this message. -/
  | malformed (msg : String)
  /-- A usable timestamp, in seconds; `now` is measured on the same clock. -/
  | valid (t : Int)
deriving DecidableEq, Repr

/-- The order dict fields read by `_check_eligibility`.  Per the data model
(schemas.py `OrderData`) `refund_amount` is nonnegative, so it is a `Nat`
(scaled); the status is an arbitrary string which the code upper-cases. -/
structure OrderRecord where
  status : String
  purchase_date : Option PDateVal
  refund_transaction_id : Option String
  refund_date : Option String
  refund_amount : Option Nat
deriving DecidableEq, Repr

/-- schemas.py `RefundEligibilityInfo`, with the pydantic defaults. -/
structure RefundEligibilityInfo where
  eligible : Bool
  reason : String
  already_refunded : Bool := false
  invalid_status : Bool := false
  order_status : String
  days_since_purchase : Option Int := none
  days_remaining : Option Int := none
  refund_transaction_id : Option String := none
  refund_date : Option String := none
  refund_amount : Option Nat := none
deriving DecidableEq, Repr

/-- One pydantic `ge=0` field check: raises a validation error naming the
field when the present value is negative. -/
def geCheck (field : String) (v : Option Int) : Except String Unit :=
  match v with
  | none => Except.ok ()
  | some n =>
    if 0 ≤ n then Except.ok ()
    else Except.error (field ++ ": Input should be greater than or equal to 0")

/-- Pydantic validation on constructing `RefundEligibilityInfo`: the two
`Int`-valued `ge=0` fields are checked (`refund_amount` is a `Nat` in the
model, nonnegative by type). -/
def mkRefundEligibilityInfo (e : RefundEligibilityInfo) :
    Except String RefundEligibilityInfo :=
  match geCheck "days_since_purchase" e.days_since_purchase with
  | Except.error msg => Except.error msg
  | Except.ok _ =>
    match geCheck "days_remaining" e.days_remaining with
    | Except.error msg => Except.error msg
    | Except.ok _ => Except.ok e

/-- transaction_agent.py line 340: `REFUND_WINDOW_DAYS = 14`. -/
def REFUND_WINDOW_DAYS : Int := 14

/-- `(now - purchase_date).days`: Python `timedelta.days` is the floor of the
difference in whole days (86400 seconds). -/
def daysElapsed (now t : Int) : Int := Int.fdiv (now - t) 86400

/-- The body of the `try` block of `_check_eligibility` (lines 331 to 362):
parse the date, compute `days_elapsed`, and build the eligibility record,
any of which can raise (`Except.error`). -/
def eligibilityDateStep (order_status : String) (now : Int) (pd : PDateVal) :
    Except String RefundEligibilityInfo :=
  match pd with
  | PDateVal.malformed msg => Except.error msg
  | PDateVal.valid t =>
    let d := daysElapsed now t
    if d ≤ REFUND_WINDOW_DAYS then
      mkRefundEligibilityInfo
        { eligible := true
        , already_refunded := false
        , invalid_status := false
        , order_status := order_status
        , days_since_purchase := some d
        , days_remaining := some (REFUND_WINDOW_DAYS - d)
        , reason := "Order is within " ++ toString REFUND_WINDOW_DAYS
            ++ "-day refund window" }
    else
      mkRefundEligibilityInfo
        { eligible := false
        , already_refunded := false
        , invalid_status := false
        , order_status := order_status
        , days_since_purchase := some d
        , reason := "Order is " ++ toString d ++ " days old, exceeds "
            ++ toString REFUND_WINDOW_DAYS ++ "-day limit" }

/-- transaction_agent.py `_check_eligibility` (lines 274 to 373), given the
order dict: upper-case the status, fail-fast on RETURNED / non-DELIVERED /
missing date, then run the dated step with its `try ... except` converting
any raised message into a non-eligible result. -/
def checkEligibility (now : Int) (r : OrderRecord) : RefundEligibilityInfo :=
  let order_status := upperStr r.status
  if order_status = "RETURNED" then
    { eligible := false
    , already_refunded := true
    , invalid_status := false
    , order_status := order_status
    , reason := "Order was already refunded"
    , refund_transaction_id := r.refund_transaction_id
    , refund_date := r.refund_date
    , refund_amount := r.refund_amount }
  else if order_status ≠ "DELIVERED" then
    { eligible := false
    , already_refunded := false
    , invalid_status := true
    , order_status := order_status
    , reason := "Order status is \x27" ++ order_status
        ++ "\x27. Only DELIVERED orders can be refunded." }
  else
    match r.purchase_date with
    | none =>
      { eligible := false
      , already_refunded := false
      , invalid_status := false
      , order_status := order_status
      , reason := "Purchase date not found in order data" }
    | some pd =>
      match eligibilityDateStep order_status now pd with
      | Except.ok e => e
      | Except.error msg =>
        { eligible := false
        , already_refunded := false
        , invalid_status := false
        , order_status := order_status
        , reason := "Error checking eligibility: " ++ msg }

/-- The `check_eligibility` task entry (lines 267 to 272): a missing
`order_data` in the context raises; otherwise the check runs. -/
def checkEligibilityTask (now : Int) (order_data : Option OrderRecord) :
    Except String RefundEligibilityInfo :=
  match order_data with
  | none => Except.error "Missing required field: \x27order_data\x27 in context"
  | some r => Except.ok (checkEligibility now r)

/-! ## Agent protocol (protocols.py) and the task-handler wrapper
(base_agent.py `handle_request`)

The task-specific logic `_execute_task` of a handler is modelled as a
function into `Except String`, `Except.error` standing for a raised
exception carrying `str(e)`.  Tracing, logging and latency bookkeeping are
pure side effects and are not modelled. -/

inductive AgentStatus where
  | success
  | error
deriving DecidableEq, Repr

/-- protocols.py `AgentRequest`; the context dict is an abstract type. -/
structure AgentRequest (κ : Type) where
  agent : String
  task : String
  context : κ

/-- protocols.py `AgentResponse` (metadata not modelled). -/
structure AgentResponse (ρ : Type) where
  agent : String
  status : AgentStatus
  result : Option ρ := none
  error : Option String := none
deriving DecidableEq, Repr

/-- protocols.py `AgentResponse.create_success`. -/
def AgentResponse.create_success {ρ : Type} (agent : String) (result : ρ) :
    AgentResponse ρ :=
  { agent := agent, status := AgentStatus.success, result := some result
  , error := none }

/-- protocols.py `AgentResponse.create_error`. -/
def AgentResponse.create_error {ρ : Type} (agent : String)
    (error_message : String) : AgentResponse ρ :=
  { agent := agent, status := AgentStatus.error, result := none
  , error := some error_message }

/-- base_agent.py `handle_request` (lines 69 to 150): run the task-specific
logic; on normal return wrap it in a success response, on any exception
wrap the message in an error response. -/
def handle_request {κ ρ : Type} (name : String)
    (execute : AgentRequest κ → Except String ρ) (req : AgentRequest κ) :
    AgentResponse ρ :=
  match execute req with
  | Except.ok result => AgentResponse.create_success name result
  | Except.error e =>
    AgentResponse.create_error name ("Task failed in " ++ name ++ ": " ++ e)

/-! ## Coordinator dispatch (coordinator.py `_execute_agent_calls`) -/

/-- One entry of the plan produced by `_plan_agent_calls`. -/
structure CallSpec (κ : Type) where
  agent : String
  task : String
  context : κ
  parallel : Bool

/-- The sequential loop of `_execute_agent_calls` (lines 397 to 412): each
registered agent is awaited directly, so an exception raised there
propagates (unknown agents are skipped with a warning). -/
def runSequential {κ ρ : Type} (registry : String → Bool)
    (run : CallSpec κ → Except String (AgentResponse ρ)) :
    List (CallSpec κ) → Except String (List (String × AgentResponse ρ))
  | [] => Except.ok []
  | c :: rest =>
    if registry c.agent then
      match run c with
      | Except.error e => Except.error e
      | Except.ok resp =>
        match runSequential registry run rest with
        | Except.error e => Except.error e
        | Except.ok tail => Except.ok ((c.agent, resp) :: tail)
    else runSequential registry run rest

/-- coordinator.py `_execute_agent_calls` (lines 338 to 414).  `run c`
models awaiting `handle_request` on the target agent for call `c`
(`Except.error` = the awaited task raised).  Parallel calls are gathered
with `return_exceptions=True` and zipped back against the parallel call
list (the source zips the unfiltered list, which is faithful here), each
raised exception becoming a synthetic `create_error` response keyed by the
handler name; the results dict is an association list. -/
def execute_agent_calls {κ ρ : Type} (registry : String → Bool)
    (run : CallSpec κ → Except String (AgentResponse ρ))
    (calls : List (CallSpec κ)) :
    Except String (List (String × AgentResponse ρ)) :=
  let parallel_calls := calls.filter (fun c => c.parallel)
  let sequential_calls := calls.filter (fun c => !c.parallel)
  let found := parallel_calls.filter (fun c => registry c.agent)
  let responses := found.map run
  let parResults := (parallel_calls.zip responses).map (fun p =>
    match p.2 with
    | Except.error e => (p.1.agent, AgentResponse.create_error p.1.agent e)
    | Except.ok resp => (p.1.agent, resp))
  match runSequential registry run sequential_calls with
  | Except.error e => Except.error e
  | Except.ok seqResults => Except.ok (parResults ++ seqResults)

/-! ## Coordinator response assembly (coordinator.py `_assemble_response`) -/

/-- schemas.py `AgentResponseTemplate.response_type` literal values. -/
inductive ResponseType where
  | refund_eligible
  | refund_not_eligible
  | refund_already_processed
  | policy_info
  | general_info
  | error
deriving DecidableEq, Repr

/-- schemas.py `AgentResponseTemplate` with its pydantic defaults. -/
structure AgentResponseTemplate where
  response_type : ResponseType
  message : String
  action_required : String := ""
  key_details : List String := []
deriving DecidableEq, Repr

/-- The fixed fallback template built in the `except ValidationError`
branch of `_assemble_response` (lines 540 to 544). -/
def fallbackTemplate : AgentResponseTemplate :=
  { response_type := ResponseType.error
  , message := "I apologize, but I encountered an error processing your request. Please contact our support team for assistance."
  , action_required := "Contact support@barefootzenith.com" }

/-- The dict returned by `_assemble_response`. -/
structure AssembledResponse where
  response : AgentResponseTemplate
  eligibility_info : Option RefundEligibilityInfo := none
deriving DecidableEq, Repr

/-- coordinator.py `_assemble_response` tail (lines 519 to 546):
`llmValidated` is the outcome of validating the LLM text against the
template schema (`Except.error` = `ValidationError`).  On success the
template is returned together with any eligibility info; on validation
failure the fixed fallback is returned (without eligibility info). -/
def assemble_response (llmValidated : Except String AgentResponseTemplate)
    (eligibility_info : Option RefundEligibilityInfo) : AssembledResponse :=
  match llmValidated with
  | Except.ok t => { response := t, eligibility_info := eligibility_info }
  | Except.error _ => { response := fallbackTemplate }

/-! ## Embeddings cache (tools.py `EmbeddingsCache`)

The `OrderedDict` is an association list whose front is the least recently
used entry and whose back is the most recently used one.  The SHA-256 hex
digest of the normalized text is abstracted as an arbitrary function
`hash`: only its determinism matters to the properties proved here. -/

/-- tools.py `_normalize_text`: `text.lower().strip()`. -/
def normalizeText (text : String) : String := stripStr (lowerStr text)

/-- tools.py `_get_cache_key`: digest of the normalized text, with the
digest function abstracted. -/
def cacheKey (hash : String → String) (text : String) : String :=
  hash (normalizeText text)

/-- tools.py `EmbeddingsCache` state. -/
structure EmbeddingsCache (V : Type) where
  cache : List (String × V)
  max_size : Nat
  hits : Nat := 0
  misses : Nat := 0
deriving DecidableEq, Repr

/-- `OrderedDict.move_to_end` for a key known to be present. -/
def moveToEnd {V : Type} (k : String) (l : List (String × V)) :
    List (String × V) :=
  match lookupKey k l with
  | none => l
  | some v => eraseKey k l ++ [(k, v)]

/-- tools.py `EmbeddingsCache.get` (lines 91 to 118): on a hit the entry is
marked most recently used and the hit counter grows; on a miss the miss
counter grows. -/
def EmbeddingsCache.get {V : Type} (hash : String → String)
    (c : EmbeddingsCache V) (text : String) :
    Option V × EmbeddingsCache V :=
  let k := cacheKey hash text
  match lookupKey k c.cache with
  | some v =>
    (some v, { c with cache := moveToEnd k c.cache, hits := c.hits + 1 })
  | none => (none, { c with misses := c.misses + 1 })

/-- tools.py `EmbeddingsCache.set` (lines 120 to 147): store under the key
at the most-recently-used end, then evict the least recently used entry if
the size bound is exceeded. -/
def EmbeddingsCache.set {V : Type} (hash : String → String)
    (c : EmbeddingsCache V) (text : String) (v : V) : EmbeddingsCache V :=
  let k := cacheKey hash text
  let updated := eraseKey k c.cache ++ [(k, v)]
  let bounded := if c.max_size < updated.length then updated.drop 1 else updated
  { c with cache := bounded }

/-- tools.py `EmbeddingsCache.get_or_compute` (lines 149 to 183): cache-aside;
the third component counts how many times `compute_fn` ran in this call
(the source computes `compute_fn([text])[0]`, modelled as `compute_fn text`). -/
def EmbeddingsCache.get_or_compute {V : Type} (hash : String → String)
    (c : EmbeddingsCache V) (text : String) (compute_fn : String → V) :
    V × EmbeddingsCache V × Nat :=
  match EmbeddingsCache.get hash c text with
  | (some v, c2) => (v, c2, 0)
  | (none, c2) =>
    let v := compute_fn text
    (v, EmbeddingsCache.set hash c2 text v, 1)

/-! ## Order-id extraction (coordinator.py `_extract_order_id`, lines 271
to 336)

The four `re.search` patterns are modelled directly over `List Char` with
leftmost-match semantics and the exact backtracking behaviour of the
original regexes.  Character classes are taken at their ASCII reading
(`\d` = ASCII digit, `\w` = ASCII letter, digit or underscore, `\s` = ASCII
whitespace), which covers every character the patterns themselves mention. -/

/-- `\d` (ASCII). -/
def isDigitChar (c : Char) : Bool := decide ('0' ≤ c ∧ c ≤ '9')

/-- `\w` (ASCII): letter, digit or underscore. -/
def isWordChar (c : Char) : Bool :=
  decide (('a' ≤ c ∧ c ≤ 'z') ∨ ('A' ≤ c ∧ c ≤ 'Z')) || isDigitChar c
    || decide (c = '_')

/-- `\s` (ASCII whitespace). -/
def isSpaceChar (c : Char) : Bool := c.isWhitespace

/-- Greedy `\d{,n}`: the longest run of digits from the front, capped at `n`. -/
def takeDigits (n : Nat) (s : List Char) : List Char :=
  (s.takeWhile isDigitChar).take n

/-- Try the anchored pattern `ORD-\d{4,6}` (case-insensitive, greedy) at the
front of `s`; on success return the matched characters. -/
def matchCanonicalAt (s : List Char) : Option (List Char) :=
  match s with
  | c1 :: c2 :: c3 :: c4 :: rest =>
    if lowerChar c1 = 'o' ∧ lowerChar c2 = 'r' ∧ lowerChar c3 = 'd' ∧ c4 = '-'
    then
      let ds := takeDigits 6 rest
      if 4 ≤ ds.length then some (c1 :: c2 :: c3 :: c4 :: ds) else none
    else none
  | _ => none

/-- `re.search` for pattern 1, `ORD-\d{4,6}` with `re.IGNORECASE`: leftmost
match. -/
def searchCanonical : List Char → Option (List Char)
  | [] => none
  | c :: rest =>
    match matchCanonicalAt (c :: rest) with
    | some m => some m
    | none => searchCanonical rest

/-- Case-insensitive literal match at the front; returns the remainder. -/
def matchLitCI : List Char → List Char → Option (List Char)
  | [], s => some s
  | _ :: _, [] => none
  | l :: ls, c :: cs =>
    if lowerChar c = lowerChar l then matchLitCI ls cs else none

/-- `\s+` at the front (greedy; the following alternatives never start with
whitespace, so maximal munch is exact); returns the remainder. -/
def afterSpaces1 (s : List Char) : Option (List Char) :=
  match s with
  | c :: rest =>
    if isSpaceChar c then some (rest.dropWhile isSpaceChar) else none
  | [] => none

/-- `(\d{4,6})\b`: the greedy digit group with its trailing word boundary.
Any shorter greedy retry leaves a digit (a word character) adjacent, so the
match succeeds exactly when the maximal digit run has length 4 to 6 and the
character after it (if any) is not a word character. -/
def matchDigitsGroup (s : List Char) : Option (List Char) :=
  let ds := s.takeWhile isDigitChar
  let after := s.drop ds.length
  if 4 ≤ ds.length ∧ ds.length ≤ 6
      ∧ (after.headD ' ' |> isWordChar) = false then
    some ds
  else none

/-- First alternative that matches, with full backtracking across
alternatives. -/
def firstSome {α : Type} : List (Option α) → Option α
  | [] => none
  | some x :: _ => some x
  | none :: rest => firstSome rest

/-- Pattern 2 after the keyword:
`(?:\s+(?:is\s+|number\s+|número\s+|#\s*|n[úu]mero\s+de\s+)?)(\d{4,6})\b`. -/
def matchConnectorDigits (s : List Char) : Option (List Char) :=
  match afterSpaces1 s with
  | none => none
  | some r =>
    firstSome
      [ (matchLitCI "is".data r).bind (fun r2 =>
          (afterSpaces1 r2).bind matchDigitsGroup)
      , (matchLitCI "number".data r).bind (fun r2 =>
          (afterSpaces1 r2).bind matchDigitsGroup)
      , (matchLitCI "número".data r).bind (fun r2 =>
          (afterSpaces1 r2).bind matchDigitsGroup)
      , (matchLitCI "#".data r).bind (fun r2 =>
          matchDigitsGroup (r2.dropWhile isSpaceChar))
      , (matchLitCI "n".data r).bind (fun r2 =>
          (matchUU r2).bind (fun r3 =>
            (matchLitCI "mero".data r3).bind (fun r4 =>
              (afterSpaces1 r4).bind (fun r5 =>
                (matchLitCI "de".data r5).bind (fun r6 =>
                  (afterSpaces1 r6).bind matchDigitsGroup)))))
      , matchDigitsGroup r ]
where
  /-- The character class `[úu]`, case-insensitively. -/
  matchUU (s : List Char) : Option (List Char) :=
    match s with
    | c :: rest =>
      if lowerChar c = 'ú' ∨ lowerChar c = 'u' then some rest else none
    | [] => none

/-- The keyword alternation `(?:order|pedido|orden|compra)` followed by the
connector-and-digits tail, with backtracking across the alternatives. -/
def matchKeywordNumber (s : List Char) : Option (List Char) :=
  firstSome
    [ (matchLitCI "order".data s).bind matchConnectorDigits
    , (matchLitCI "pedido".data s).bind matchConnectorDigits
    , (matchLitCI "orden".data s).bind matchConnectorDigits
    , (matchLitCI "compra".data s).bind matchConnectorDigits ]

/-- `\b` before a position whose first character is a word character:
holds at the start of the text or after a non-word character. -/
def boundaryBefore : Option Char → Bool
  | none => true
  | some p => !(isWordChar p)

/-- Leftmost `re.search` for an anchored matcher that begins with a word
character, threading the previous character for the leading `\b`. -/
def searchWithBoundary (matchAt : List Char → Option (List Char)) :
    Option Char → List Char → Option (List Char)
  | _, [] => none
  | prev, c :: rest =>
    match (if boundaryBefore prev then matchAt (c :: rest) else none) with
    | some m => some m
    | none => searchWithBoundary matchAt (some c) rest

/-- Pattern 3 anchored:
`n[úu]mero\s+(?:de\s+)?(?:pedido|orden)\s+(\d{4,6})\b` (after its `\b`). -/
def matchNumeroDePedido (s : List Char) : Option (List Char) :=
  (matchLitCI "n".data s).bind (fun r =>
    (matchConnectorDigits.matchUU r).bind (fun r2 =>
      (matchLitCI "mero".data r2).bind (fun r3 =>
        (afterSpaces1 r3).bind (fun r4 =>
          firstSome
            [ (matchLitCI "de".data r4).bind (fun r5 =>
                (afterSpaces1 r5).bind (fun r6 => tailKw r6))
            , tailKw r4 ]))))
where
  /-- `(?:pedido|orden)\s+(\d{4,6})\b`. -/
  tailKw (s : List Char) : Option (List Char) :=
    firstSome
      [ (matchLitCI "pedido".data s).bind (fun r =>
          (afterSpaces1 r).bind matchDigitsGroup)
      , (matchLitCI "orden".data s).bind (fun r =>
          (afterSpaces1 r).bind matchDigitsGroup) ]

/-- coordinator.py `_extract_order_id`: the four-pattern cascade, first
(highest-priority) pattern with a match wins; pattern 1 returns the match
upper-cased, the others synthesize `ORD-<digits>`. -/
def extract_order_id (text : List Char) : Option String :=
  match searchCanonical text with
  | some m => some ⟨m.map upperChar⟩
  | none =>
    match searchWithBoundary matchKeywordNumber none text with
    | some ds => some ("ORD-" ++ (⟨ds⟩ : String))
    | none =>
      match searchWithBoundary matchNumeroDePedido none text with
      | some ds => some ("ORD-" ++ (⟨ds⟩ : String))
      | none =>
        match searchWithBoundary matchDigitsGroup none text with
        | some ds => some ("ORD-" ++ (⟨ds⟩ : String))
        | none => none

/-! ## Helper lemmas about the eligibility engine -/

theorem geCheck_ok {field : String} {v : Option Int} {u : Unit}
    (h : geCheck field v = Except.ok u) : ∀ n, v = some n → 0 ≤ n := by
  intro n hn
  subst hn
  simp only [geCheck] at h
  by_cases h0 : 0 ≤ n
  · exact h0
  · rw [if_neg h0] at h
    simp at h

theorem mkRefundEligibilityInfo_ok {e0 e : RefundEligibilityInfo}
    (h : mkRefundEligibilityInfo e0 = Except.ok e) :
    e = e0 ∧ ∀ n, e0.days_since_purchase = some n → 0 ≤ n := by
  unfold mkRefundEligibilityInfo at h
  cases hd : geCheck "days_since_purchase" e0.days_since_purchase with
  | error msg => rw [hd] at h; simp at h
  | ok u =>
    rw [hd] at h
    cases hr : geCheck "days_remaining" e0.days_remaining with
    | error msg => rw [hr] at h; simp at h
    | ok u2 =>
      rw [hr] at h
      simp only [Except.ok.injEq] at h
      exact ⟨h.symm, geCheck_ok hd⟩

theorem checkEligibility_returned {now : Int} {r : OrderRecord}
    (h1 : upperStr r.status = "RETURNED") :
    checkEligibility now r =
      { eligible := false
      , already_refunded := true
      , invalid_status := false
      , order_status := "RETURNED"
      , reason := "Order was already refunded"
      , refund_transaction_id := r.refund_transaction_id
      , refund_date := r.refund_date
      , refund_amount := r.refund_amount } := by
  simp only [checkEligibility, h1]
  simp

theorem checkEligibility_invalid {now : Int} {r : OrderRecord}
    (h1 : upperStr r.status ≠ "RETURNED")
    (h2 : upperStr r.status ≠ "DELIVERED") :
    checkEligibility now r =
      { eligible := false
      , already_refunded := false
      , invalid_status := true
      , order_status := upperStr r.status
      , reason := "Order status is \x27" ++ upperStr r.status
          ++ "\x27. Only DELIVERED orders can be refunded." } := by
  simp only [checkEligibility]
  rw [if_neg h1, if_pos h2]

theorem checkEligibility_delivered_none {now : Int} {r : OrderRecord}
    (hs : upperStr r.status = "DELIVERED") (hp : r.purchase_date = none) :
    checkEligibility now r =
      { eligible := false
      , already_refunded := false
      , invalid_status := false
      , order_status := "DELIVERED"
      , reason := "Purchase date not found in order data" } := by
  simp only [checkEligibility, hs, hp]
  rw [if_neg (by decide), if_neg (by decide)]

theorem checkEligibility_delivered_some {now : Int} {r : OrderRecord}
    {pd : PDateVal}
    (hs : upperStr r.status = "DELIVERED") (hp : r.purchase_date = some pd) :
    checkEligibility now r =
      match eligibilityDateStep "DELIVERED" now pd with
      | Except.ok e => e
      | Except.error msg =>
        { eligible := false
        , already_refunded := false
        , invalid_status := false
        , order_status := "DELIVERED"
        , reason := "Error checking eligibility: " ++ msg } := by
  simp only [checkEligibility, hs, hp]
  rw [if_neg (by decide), if_neg (by decide)]

theorem eligibilityDateStep_in_window {st : String} {now t : Int}
    (h0 : 0 ≤ daysElapsed now t) (h14 : daysElapsed now t ≤ 14) :
    eligibilityDateStep st now (PDateVal.valid t) =
      Except.ok
        { eligible := true
        , already_refunded := false
        , invalid_status := false
        , order_status := st
        , days_since_purchase := some (daysElapsed now t)
        , days_remaining := some (14 - daysElapsed now t)
        , reason := "Order is within " ++ toString (14 : Int)
            ++ "-day refund window" } := by
  simp only [eligibilityDateStep, REFUND_WINDOW_DAYS]
  rw [if_pos h14]
  simp only [mkRefundEligibilityInfo, geCheck]
  rw [if_pos h0, if_pos (by omega : (0 : Int) ≤ 14 - daysElapsed now t)]

theorem eligibilityDateStep_out_window {st : String} {now t : Int}
    (h14 : 14 < daysElapsed now t) :
    eligibilityDateStep st now (PDateVal.valid t) =
      Except.ok
        { eligible := false
        , already_refunded := false
        , invalid_status := false
        , order_status := st
        , days_since_purchase := some (daysElapsed now t)
        , reason := "Order is " ++ toString (daysElapsed now t)
            ++ " days old, exceeds " ++ toString (14 : Int) ++ "-day limit" } := by
  simp only [eligibilityDateStep, REFUND_WINDOW_DAYS]
  rw [if_neg (by omega : ¬ daysElapsed now t ≤ 14)]
  simp only [mkRefundEligibilityInfo, geCheck]
  rw [if_pos (by omega : (0 : Int) ≤ daysElapsed now t)]

theorem eligibilityDateStep_negative {st : String} {now t : Int}
    (hneg : daysElapsed now t < 0) :
    eligibilityDateStep st now (PDateVal.valid t) =
      Except.error
        "days_since_purchase: Input should be greater than or equal to 0" := by
  simp only [eligibilityDateStep, REFUND_WINDOW_DAYS]
  rw [if_pos (by omega : daysElapsed now t ≤ 14)]
  simp only [mkRefundEligibilityInfo, geCheck]
  rw [if_neg (by omega : ¬ (0 : Int) ≤ daysElapsed now t)]
  rfl

/-! ## Concrete order records used by counterexamples and witnesses -/

/-- A DELIVERED order whose purchase date is one day in the future of
`now = 0`. -/
def futureOrder : OrderRecord :=
  { status := "DELIVERED", purchase_date := some (PDateVal.valid 86400)
  , refund_transaction_id := none, refund_date := none, refund_amount := none }

/-- A DELIVERED order purchased at time 0. -/
def sampleDelivered : OrderRecord :=
  { status := "DELIVERED", purchase_date := some (PDateVal.valid 0)
  , refund_transaction_id := none, refund_date := none, refund_amount := none }

/-- A RETURNED order carrying refund metadata. -/
def returnedOrder : OrderRecord :=
  { status := "RETURNED", purchase_date := some (PDateVal.valid 0)
  , refund_transaction_id := some "TXN-REF-123"
  , refund_date := some "2025-01-01", refund_amount := some 4550 }

/-- A DELIVERED order whose purchase date fails to parse. -/
def malformedOrder : OrderRecord :=
  { status := "DELIVERED"
  , purchase_date := some (PDateVal.malformed "Invalid isoformat string")
  , refund_transaction_id := none, refund_date := none, refund_amount := none }

/-! ## Claim theorems: eligibility engine -/

/-- C1, counterexample to the claim as stated: for the DELIVERED order
`futureOrder` (purchase date present, one day in the future of `now = 0`)
the computed `days_elapsed` is `-1 ≤ 14`, yet the eligibility check returns
`eligible = false` instead of `eligible = true` with
`days_remaining = 14 - days_elapsed`. -/
theorem c1_counterexample :
    futureOrder.status = "DELIVERED" ∧
    futureOrder.purchase_date = some (PDateVal.valid 86400) ∧
    daysElapsed 0 86400 ≤ 14 ∧
    (checkEligibility 0 futureOrder).eligible = false ∧
    (checkEligibility 0 futureOrder).days_remaining = none := by
  decide

/-- C1 (amended): for every order record with status DELIVERED and a
present, parseable purchase date that is not in the future
(`0 ≤ days_elapsed`, with `days_elapsed` the floor of `now - purchase_date`
in whole days), the check returns `eligible = true` with
`days_remaining = 14 - days_elapsed` whenever `days_elapsed ≤ 14` (so in
particular at 14), and at `days_elapsed > 14` (so in particular at 15) it
returns `eligible = false` with a reason stating the elapsed days and the
14-day limit. -/
theorem c1_window_boundary (now t : Int) (r : OrderRecord)
    (hs : r.status = "DELIVERED")
    (hp : r.purchase_date = some (PDateVal.valid t))
    (h0 : 0 ≤ daysElapsed now t) :
    (daysElapsed now t ≤ 14 →
      (checkEligibility now r).eligible = true ∧
      (checkEligibility now r).days_since_purchase = some (daysElapsed now t) ∧
      (checkEligibility now r).days_remaining
        = some (14 - daysElapsed now t)) ∧
    (14 < daysElapsed now t →
      (checkEligibility now r).eligible = false ∧
      (checkEligibility now r).days_since_purchase = some (daysElapsed now t) ∧
      (checkEligibility now r).reason =
        "Order is " ++ toString (daysElapsed now t)
          ++ " days old, exceeds " ++ toString (14 : Int) ++ "-day limit") := by
  have hup : upperStr r.status = "DELIVERED" := by rw [hs]; decide
  have hred := @checkEligibility_delivered_some now r _ hup hp
  constructor
  · intro h14
    rw [eligibilityDateStep_in_window h0 h14] at hred
    rw [hred]
    exact ⟨rfl, rfl, rfl⟩
  · intro h14
    rw [eligibilityDateStep_out_window h14] at hred
    rw [hred]
    exact ⟨rfl, rfl, rfl⟩

/-- C1 witness: at exactly 14 elapsed days the order is eligible, and at
15 elapsed days it is not. -/
theorem c1_window_boundary_witness :
    ((checkEligibility 1209600 sampleDelivered).eligible = true ∧
     (checkEligibility 1209600 sampleDelivered).days_since_purchase
       = some (daysElapsed 1209600 0) ∧
     (checkEligibility 1209600 sampleDelivered).days_remaining
       = some (14 - daysElapsed 1209600 0)) ∧
    (checkEligibility 1296000 sampleDelivered).eligible = false :=
  ⟨(c1_window_boundary 1209600 0 sampleDelivered rfl rfl (by decide)).1
      (by decide),
   ((c1_window_boundary 1296000 0 sampleDelivered rfl rfl (by decide)).2
      (by decide)).1⟩

/-- C2: whenever the eligibility check returns `eligible = true`, the same
result has `already_refunded = false`, `invalid_status = false`, and a
present `days_since_purchase` of at most 14 (and at least 0). -/
theorem c2_eligible_invariant (now : Int) (r : OrderRecord)
    (h : (checkEligibility now r).eligible = true) :
    (checkEligibility now r).already_refunded = false ∧
    (checkEligibility now r).invalid_status = false ∧
    ∃ d, (checkEligibility now r).days_since_purchase = some d ∧
      0 ≤ d ∧ d ≤ 14 := by
  by_cases h1 : upperStr r.status = "RETURNED"
  · rw [checkEligibility_returned h1] at h
    cases h
  by_cases h2 : upperStr r.status = "DELIVERED"
  · cases hp : r.purchase_date with
    | none =>
      rw [checkEligibility_delivered_none h2 hp] at h
      cases h
    | some pd =>
      have hred := @checkEligibility_delivered_some now r pd h2 hp
      cases pd with
      | malformed msg =>
        rw [hred] at h ⊢
        cases h
      | valid t =>
        by_cases h14 : daysElapsed now t ≤ 14
        · by_cases h0 : 0 ≤ daysElapsed now t
          · rw [eligibilityDateStep_in_window h0 h14] at hred
            rw [hred]
            exact ⟨rfl, rfl, daysElapsed now t, rfl, h0, h14⟩
          · rw [eligibilityDateStep_negative (by omega)] at hred
            rw [hred] at h
            cases h
        · rw [eligibilityDateStep_out_window (by omega)] at hred
          rw [hred] at h
          cases h
  · rw [checkEligibility_invalid h1 h2] at h
    cases h

/-- C2 witness: a DELIVERED order five days old is eligible and satisfies
the invariant. -/
theorem c2_eligible_invariant_witness :
    (checkEligibility 432000 sampleDelivered).already_refunded = false ∧
    (checkEligibility 432000 sampleDelivered).invalid_status = false ∧
    ∃ d, (checkEligibility 432000 sampleDelivered).days_since_purchase
      = some d ∧ 0 ≤ d ∧ d ≤ 14 :=
  c2_eligible_invariant 432000 sampleDelivered (by decide)

/-- C3: for every order record with status RETURNED the check returns
`eligible = false` and `already_refunded = true`, carries forward the prior
refund metadata, and never examines the purchase date (the result is
unchanged under any replacement of the purchase date). -/
theorem c3_returned_short_circuit (now : Int) (r : OrderRecord)
    (hs : r.status = "RETURNED") :
    (checkEligibility now r).eligible = false ∧
    (checkEligibility now r).already_refunded = true ∧
    (checkEligibility now r).refund_transaction_id = r.refund_transaction_id ∧
    (checkEligibility now r).refund_date = r.refund_date ∧
    (checkEligibility now r).refund_amount = r.refund_amount ∧
    ∀ pd2, checkEligibility now { r with purchase_date := pd2 }
      = checkEligibility now r := by
  have hup : upperStr r.status = "RETURNED" := by rw [hs]; decide
  rw [checkEligibility_returned hup]
  refine ⟨rfl, rfl, rfl, rfl, rfl, ?_⟩
  intro pd2
  rw [@checkEligibility_returned now { r with purchase_date := pd2 } hup]

/-- C3 witness: a concrete RETURNED order with refund metadata. -/
theorem c3_returned_short_circuit_witness :
    (checkEligibility 0 returnedOrder).eligible = false ∧
    (checkEligibility 0 returnedOrder).already_refunded = true ∧
    (checkEligibility 0 returnedOrder).refund_transaction_id
      = returnedOrder.refund_transaction_id ∧
    (checkEligibility 0 returnedOrder).refund_date
      = returnedOrder.refund_date ∧
    (checkEligibility 0 returnedOrder).refund_amount
      = returnedOrder.refund_amount ∧
    ∀ pd2, checkEligibility 0 { returnedOrder with purchase_date := pd2 }
      = checkEligibility 0 returnedOrder :=
  c3_returned_short_circuit 0 returnedOrder rfl

/-- C4: with `order_data` supplied, the `check_eligibility` task never
raises (its outcome is always `Except.ok`), and whenever the date
parsing / date arithmetic step raises a message, the result is a
non-eligible record whose reason carries that message. -/
theorem c4_never_raises (now : Int) (r : OrderRecord) :
    (∃ out, checkEligibilityTask now (some r) = Except.ok out) ∧
    (∀ pd msg, upperStr r.status = "DELIVERED" →
      r.purchase_date = some pd →
      eligibilityDateStep "DELIVERED" now pd = Except.error msg →
      (checkEligibility now r).eligible = false ∧
      (checkEligibility now r).reason
        = "Error checking eligibility: " ++ msg) := by
  refine ⟨⟨checkEligibility now r, rfl⟩, ?_⟩
  intro pd msg hs hp hstep
  rw [checkEligibility_delivered_some hs hp, hstep]
  exact ⟨rfl, rfl⟩

/-- C4 witness: a DELIVERED order whose date fails to parse yields a
non-eligible result carrying the parse message. -/
theorem c4_never_raises_witness :
    (∃ out, checkEligibilityTask 0 (some malformedOrder) = Except.ok out) ∧
    ((checkEligibility 0 malformedOrder).eligible = false ∧
     (checkEligibility 0 malformedOrder).reason
       = "Error checking eligibility: " ++ "Invalid isoformat string") :=
  ⟨(c4_never_raises 0 malformedOrder).1,
   (c4_never_raises 0 malformedOrder).2
     (PDateVal.malformed "Invalid isoformat string")
     "Invalid isoformat string" (by decide) rfl rfl⟩

/-- C10: for a DELIVERED order whose purchase date lies strictly in the
future (negative elapsed days), constructing the result violates the
`days_since_purchase ≥ 0` schema constraint; the validation error is
caught and converted, so the check returns `eligible = false` with the
validation message in the reason. -/
theorem c10_future_purchase_not_eligible (now t : Int) (r : OrderRecord)
    (hs : r.status = "DELIVERED")
    (hp : r.purchase_date = some (PDateVal.valid t))
    (hneg : daysElapsed now t < 0) :
    (checkEligibility now r).eligible = false ∧
    (checkEligibility now r).days_since_purchase = none ∧
    (checkEligibility now r).reason =
      "Error checking eligibility: days_since_purchase: Input should be greater than or equal to 0" := by
  have hup : upperStr r.status = "DELIVERED" := by rw [hs]; decide
  rw [checkEligibility_delivered_some hup hp, eligibilityDateStep_negative hneg]
  exact ⟨rfl, rfl, rfl⟩

/-- C10 witness: the concrete future-dated DELIVERED order. -/
theorem c10_future_purchase_witness :
    (checkEligibility 0 futureOrder).eligible = false ∧
    (checkEligibility 0 futureOrder).days_since_purchase = none ∧
    (checkEligibility 0 futureOrder).reason =
      "Error checking eligibility: days_since_purchase: Input should be greater than or equal to 0" :=
  c10_future_purchase_not_eligible 0 86400 futureOrder rfl rfl (by decide)

/-! ## Claim theorems: task handler wrapper and coordinator -/

/-- C6: `handle_request` never raises (it is a total function into
`AgentResponse`); when the task-specific logic raises `e` the response is
the Error response with message `"Task failed in <handler>: <cause>"`, and
when it returns normally the response is the Success response with the
result. -/
theorem c6_handle_request_boundary {κ ρ : Type} (name : String)
    (execute : AgentRequest κ → Except String ρ) (req : AgentRequest κ) :
    (∀ r, execute req = Except.ok r →
      handle_request name execute req
        = AgentResponse.create_success name r ∧
      (handle_request name execute req).status = AgentStatus.success) ∧
    (∀ e, execute req = Except.error e →
      handle_request name execute req
        = AgentResponse.create_error name
            ("Task failed in " ++ name ++ ": " ++ e) ∧
      (handle_request name execute req).status = AgentStatus.error ∧
      (handle_request name execute req).error
        = some ("Task failed in " ++ name ++ ": " ++ e)) := by
  constructor
  · intro r hr
    unfold handle_request
    rw [hr]
    exact ⟨rfl, rfl⟩
  · intro e he
    unfold handle_request
    rw [he]
    exact ⟨rfl, rfl, rfl⟩

/-- C6 witness: a task that raises is converted into the tagged Error
response. -/
theorem c6_handle_request_boundary_witness :
    handle_request "transaction_agent"
        (fun _ : AgentRequest Unit => (Except.error "boom" : Except String Nat))
        { agent := "transaction_agent", task := "get_order", context := () }
      = AgentResponse.create_error "transaction_agent"
          ("Task failed in " ++ "transaction_agent" ++ ": " ++ "boom") :=
  ((c6_handle_request_boundary "transaction_agent" _ _).2 "boom" rfl).1

/-- C7: dispatching two parallel calls whose agents are both registered;
if one branch raises while the other returns a response, the aggregated
map still holds the successful response under its handler key, and the
raising branch appears as an Error response keyed by its own handler name
with the exception text as message. -/
theorem c7_dispatch_isolation {κ ρ : Type} (registry : String → Bool)
    (run : CallSpec κ → Except String (AgentResponse ρ))
    (c1 c2 : CallSpec κ) (e : String) (resp : AgentResponse ρ)
    (hp1 : c1.parallel = true) (hp2 : c2.parallel = true)
    (hr1 : registry c1.agent = true) (hr2 : registry c2.agent = true)
    (hne : c1.agent ≠ c2.agent) :
    (run c1 = Except.error e → run c2 = Except.ok resp →
      ∃ res, execute_agent_calls registry run [c1, c2] = Except.ok res ∧
        lookupKey c1.agent res
          = some (AgentResponse.create_error c1.agent e) ∧
        lookupKey c2.agent res = some resp) ∧
    (run c1 = Except.ok resp → run c2 = Except.error e →
      ∃ res, execute_agent_calls registry run [c1, c2] = Except.ok res ∧
        lookupKey c2.agent res
          = some (AgentResponse.create_error c2.agent e) ∧
        lookupKey c1.agent res = some resp) := by
  have hfilter :
      [c1, c2].filter (fun c => c.parallel) = [c1, c2] := by
    simp [List.filter, hp1, hp2]
  have hseq : [c1, c2].filter (fun c => !c.parallel) = [] := by
    simp [List.filter, hp1, hp2]
  have hfound :
      [c1, c2].filter (fun c => registry c.agent) = [c1, c2] := by
    simp [List.filter, hr1, hr2]
  constructor
  · intro h1 h2
    refine ⟨[(c1.agent, AgentResponse.create_error c1.agent e),
             (c2.agent, resp)], ?_, ?_, ?_⟩
    · simp only [execute_agent_calls]
      rw [hfilter, hseq, hfound]
      simp only [runSequential, List.map, List.zip, List.zipWith, h1, h2,
        List.append_nil]
    · simp [lookupKey]
    · simp [lookupKey, hne]
  · intro h1 h2
    refine ⟨[(c1.agent, resp),
             (c2.agent, AgentResponse.create_error c2.agent e)], ?_, ?_, ?_⟩
    · simp only [execute_agent_calls]
      rw [hfilter, hseq, hfound]
      simp only [runSequential, List.map, List.zip, List.zipWith, h1, h2,
        List.append_nil]
    · simp [lookupKey, hne]
    · simp [lookupKey]

/-- Concrete dispatch scenario used by the C7 witness. -/
def policyCall : CallSpec Unit :=
  { agent := "policy_expert", task := "search_policy", context := ()
  , parallel := true }

/-- Concrete dispatch scenario used by the C7 witness. -/
def transactionCall : CallSpec Unit :=
  { agent := "transaction_agent", task := "get_order", context := ()
  , parallel := true }

/-- The run function of the C7 witness: the policy branch raises, the
transaction branch answers normally. -/
def witnessRun (c : CallSpec Unit) : Except String (AgentResponse Nat) :=
  if c.agent = "policy_expert" then Except.error "boom"
  else Except.ok (AgentResponse.create_success "transaction_agent" 7)

/-- C7 witness: in the two-call fan-out where the policy branch raises,
the aggregated map holds the transaction response and a synthetic Error
entry for the policy branch. -/
theorem c7_dispatch_isolation_witness :
    ∃ res, execute_agent_calls (fun _ => true) witnessRun
        [policyCall, transactionCall] = Except.ok res ∧
      lookupKey policyCall.agent res
        = some (AgentResponse.create_error policyCall.agent "boom") ∧
      lookupKey transactionCall.agent res
        = some (AgentResponse.create_success "transaction_agent" 7) :=
  (c7_dispatch_isolation (fun _ => true) witnessRun policyCall
      transactionCall "boom" (AgentResponse.create_success "transaction_agent" 7)
      rfl rfl rfl rfl (by decide)).1 rfl rfl

/-- C8: when schema validation of the LLM output fails, response assembly
does not propagate the error: it returns the fixed fallback template whose
`response_type` is `error` and whose message advises contacting support,
and the coordinator task that returns this assembled value still completes
as a Success-status response. -/
theorem c8_assembly_fallback (msg : String)
    (ei : Option RefundEligibilityInfo) (req : AgentRequest Unit) :
    assemble_response (Except.error msg) ei
      = { response := fallbackTemplate, eligibility_info := none } ∧
    fallbackTemplate.response_type = ResponseType.error ∧
    fallbackTemplate.message
      = "I apologize, but I encountered an error processing your request. Please contact our support team for assistance." ∧
    (handle_request "coordinator"
        (fun _ : AgentRequest Unit =>
          Except.ok (assemble_response (Except.error msg) ei)) req).status
      = AgentStatus.success := by
  exact ⟨rfl, rfl, rfl, rfl⟩

/-! ## Helper lemmas about association lists, and the cache claim -/

theorem lookupKey_cons_none {V : Type} {k : String} {a : String × V}
    {l : List (String × V)} (h : lookupKey k (a :: l) = none) :
    a.1 ≠ k ∧ lookupKey k l = none := by
  rcases a with ⟨k2, v⟩
  simp only [lookupKey] at h
  by_cases hk : k2 = k
  · rw [if_pos hk] at h
    cases h
  · rw [if_neg hk] at h
    exact ⟨hk, h⟩

theorem eraseKey_of_none {V : Type} {k : String} {l : List (String × V)}
    (h : lookupKey k l = none) : eraseKey k l = l := by
  induction l with
  | nil => rfl
  | cons a t ih =>
    obtain ⟨hne, ht⟩ := lookupKey_cons_none h
    rcases a with ⟨k2, v⟩
    simp only [eraseKey]
    rw [if_neg hne, ih ht]

theorem lookupKey_append_of_none {V : Type} {k : String}
    {l m : List (String × V)} (h : lookupKey k l = none) :
    lookupKey k (l ++ m) = lookupKey k m := by
  induction l with
  | nil => rfl
  | cons a t ih =>
    obtain ⟨hne, ht⟩ := lookupKey_cons_none h
    rcases a with ⟨k2, v⟩
    simp only [List.cons_append, lookupKey]
    rw [if_neg hne]
    exact ih ht

/-- After `set` on a key that was absent, the key maps to the stored value
provided the cache can hold at least one entry. -/
theorem lookupKey_after_set {V : Type} (hash : String → String)
    (c : EmbeddingsCache V) (text : String) (v : V)
    (hmiss : lookupKey (cacheKey hash text) c.cache = none)
    (hsize : 1 ≤ c.max_size) :
    lookupKey (cacheKey hash text)
      (EmbeddingsCache.set hash c text v).cache = some v := by
  simp only [EmbeddingsCache.set]
  rw [eraseKey_of_none hmiss]
  cases hc : c.cache with
  | nil =>
    rw [if_neg (by simp; omega)]
    simp [lookupKey]
  | cons a t =>
    rw [hc] at hmiss
    obtain ⟨hne, ht⟩ := lookupKey_cons_none hmiss
    by_cases hlen : c.max_size < ((a :: t) ++ [(cacheKey hash text, v)]).length
    · rw [if_pos hlen]
      simp only [List.cons_append, List.drop_succ_cons, List.drop_zero,
        List.append_eq]
      rw [lookupKey_append_of_none ht]
      simp [lookupKey]
    · rw [if_neg hlen]
      simp only [List.cons_append, lookupKey, List.append_eq]
      rw [if_neg hne, lookupKey_append_of_none ht]
      simp [lookupKey]

/-- C9: two texts that agree after lowercasing and stripping map to the
same cache key; starting from a cache that misses on that key (and can
hold at least one entry), the first `get_or_compute` invokes the compute
function exactly once and the second invokes it zero times, returning the
value cached by the first. -/
theorem c9_cache_idempotent {V : Type} (hash : String → String)
    (c : EmbeddingsCache V) (t1 t2 : String) (fn : String → V)
    (hnorm : normalizeText t1 = normalizeText t2)
    (hmiss : lookupKey (cacheKey hash t1) c.cache = none)
    (hsize : 1 ≤ c.max_size) :
    cacheKey hash t1 = cacheKey hash t2 ∧
    (EmbeddingsCache.get_or_compute hash c t1 fn).2.2 = 1 ∧
    (EmbeddingsCache.get_or_compute hash
        (EmbeddingsCache.get_or_compute hash c t1 fn).2.1 t2 fn).2.2 = 0 ∧
    (EmbeddingsCache.get_or_compute hash
        (EmbeddingsCache.get_or_compute hash c t1 fn).2.1 t2 fn).1
      = (EmbeddingsCache.get_or_compute hash c t1 fn).1 := by
  have hkey : cacheKey hash t1 = cacheKey hash t2 := by
    unfold cacheKey
    rw [hnorm]
  have hget1 : EmbeddingsCache.get hash c t1
      = (none, { c with misses := c.misses + 1 }) := by
    simp only [EmbeddingsCache.get]
    rw [hmiss]
  have h1 : EmbeddingsCache.get_or_compute hash c t1 fn
      = (fn t1,
         EmbeddingsCache.set hash { c with misses := c.misses + 1 } t1 (fn t1),
         1) := by
    simp only [EmbeddingsCache.get_or_compute]
    rw [hget1]
  have hlook2 : lookupKey (cacheKey hash t2)
      (EmbeddingsCache.set hash { c with misses := c.misses + 1 } t1
        (fn t1)).cache = some (fn t1) := by
    rw [← hkey]
    exact lookupKey_after_set hash { c with misses := c.misses + 1 } t1
      (fn t1) hmiss hsize
  refine ⟨hkey, ?_, ?_, ?_⟩
  · rw [h1]
  · rw [h1]
    simp only [EmbeddingsCache.get_or_compute, EmbeddingsCache.get]
    rw [hlook2]
  · rw [h1]
    simp only [EmbeddingsCache.get_or_compute, EmbeddingsCache.get]
    rw [hlook2]

/-- The empty embeddings cache with the default size bound 100. -/
def emptyCache : EmbeddingsCache Nat := { cache := [], max_size := 100 }

/-- C9 witness: "Refund Policy" and "refund policy  " (trailing blanks)
share one cache entry, and the compute function runs only on the first
call. -/
theorem c9_cache_idempotent_witness :
    cacheKey id "Refund Policy" = cacheKey id "refund policy  " ∧
    (EmbeddingsCache.get_or_compute id emptyCache "Refund Policy"
      (fun _ => 7)).2.2 = 1 ∧
    (EmbeddingsCache.get_or_compute id
        (EmbeddingsCache.get_or_compute id emptyCache "Refund Policy"
          (fun _ => 7)).2.1 "refund policy  " (fun _ => 7)).2.2 = 0 ∧
    (EmbeddingsCache.get_or_compute id
        (EmbeddingsCache.get_or_compute id emptyCache "Refund Policy"
          (fun _ => 7)).2.1 "refund policy  " (fun _ => 7)).1
      = (EmbeddingsCache.get_or_compute id emptyCache "Refund Policy"
          (fun _ => 7)).1 :=
  c9_cache_idempotent id emptyCache "Refund Policy" "refund policy  "
    (fun _ => 7) (by decide) rfl (by decide)

/-! ## Helper lemmas about pattern-1 extraction, and the extraction claim -/

/-- A canonical order token: `ORD-` in any letter case followed by 4 to 6
digits. -/
def IsCanonicalToken (tok : List Char) : Prop :=
  ∃ c1 c2 c3 ds, tok = c1 :: c2 :: c3 :: '-' :: ds ∧
    lowerChar c1 = 'o' ∧ lowerChar c2 = 'r' ∧ lowerChar c3 = 'd' ∧
    4 ≤ ds.length ∧ ds.length ≤ 6 ∧ ∀ c ∈ ds, isDigitChar c = true

theorem takeDigits_decomp (n : Nat) (l : List Char) :
    takeDigits n l ++ ((l.takeWhile isDigitChar).drop n
      ++ l.dropWhile isDigitChar) = l := by
  unfold takeDigits
  rw [← List.append_assoc, List.take_append_drop,
    List.takeWhile_append_dropWhile]

theorem takeWhile_append_of_all {p : Char → Bool} {l : List Char}
    (h : ∀ c ∈ l, p c = true) (m : List Char) :
    (l ++ m).takeWhile p = l ++ m.takeWhile p := by
  induction l with
  | nil => rfl
  | cons a t ih =>
    simp only [List.cons_append, List.takeWhile_cons]
    rw [h a (by simp)]
    simp only [if_true]
    rw [ih (fun c hc => h c (by simp [hc]))]

theorem matchCanonicalAt_sound {s m : List Char}
    (h : matchCanonicalAt s = some m) :
    IsCanonicalToken m ∧ ∃ post, s = m ++ post := by
  match s with
  | [] => cases h
  | [c1] => cases h
  | [c1, c2] => cases h
  | [c1, c2, c3] => cases h
  | c1 :: c2 :: c3 :: c4 :: rest =>
    simp only [matchCanonicalAt] at h
    by_cases hcond :
        lowerChar c1 = 'o' ∧ lowerChar c2 = 'r' ∧ lowerChar c3 = 'd'
          ∧ c4 = '-'
    · rw [if_pos hcond] at h
      by_cases hlen : 4 ≤ (takeDigits 6 rest).length
      · rw [if_pos hlen] at h
        injection h with hm
        obtain ⟨h1, h2, h3, h4⟩ := hcond
        subst h4
        subst hm
        constructor
        · refine ⟨c1, c2, c3, takeDigits 6 rest, rfl, h1, h2, h3, hlen,
            ?_, ?_⟩
          · unfold takeDigits
            rw [List.length_take]
            exact min_le_left _ _
          · intro c hc
            exact List.mem_takeWhile_imp (List.take_subset _ _ hc)
        · refine ⟨(rest.takeWhile isDigitChar).drop 6
            ++ rest.dropWhile isDigitChar, ?_⟩
          simp only [List.cons_append, List.cons.injEq, true_and]
          exact (takeDigits_decomp 6 rest).symm
      · rw [if_neg hlen] at h
        cases h
    · rw [if_neg hcond] at h
      cases h

theorem matchCanonicalAt_complete {tok : List Char} (h : IsCanonicalToken tok)
    (post : List Char) : (matchCanonicalAt (tok ++ post)).isSome = true := by
  obtain ⟨c1, c2, c3, ds, htok, h1, h2, h3, h4, h6, hdig⟩ := h
  subst htok
  simp only [List.cons_append, matchCanonicalAt]
  rw [if_pos ⟨h1, h2, h3, trivial⟩]
  have hlen : 4 ≤ (takeDigits 6 (ds ++ post)).length := by
    unfold takeDigits
    rw [takeWhile_append_of_all hdig, List.length_take, List.length_append]
    omega
  rw [if_pos hlen]
  rfl

theorem searchCanonical_sound {t m : List Char}
    (h : searchCanonical t = some m) :
    IsCanonicalToken m ∧ ∃ pre post, t = pre ++ m ++ post := by
  induction t with
  | nil => cases h
  | cons c rest ih =>
    simp only [searchCanonical] at h
    cases hm : matchCanonicalAt (c :: rest) with
    | some m2 =>
      rw [hm] at h
      injection h with h2
      subst h2
      obtain ⟨hc, post, hpost⟩ := matchCanonicalAt_sound hm
      exact ⟨hc, [], post, by rw [hpost]; simp⟩
    | none =>
      rw [hm] at h
      obtain ⟨hc, pre, post, heq⟩ := ih h
      exact ⟨hc, c :: pre, post, by rw [heq]; simp⟩

theorem searchCanonical_complete (pre : List Char) {tok : List Char}
    (post : List Char) (h : IsCanonicalToken tok) :
    (searchCanonical (pre ++ (tok ++ post))).isSome = true := by
  induction pre with
  | nil =>
    simp only [List.nil_append]
    have hcomp := matchCanonicalAt_complete h post
    obtain ⟨c1, c2, c3, ds, htok, hrest⟩ := h
    subst htok
    simp only [List.cons_append] at hcomp ⊢
    simp only [searchCanonical]
    cases hm : matchCanonicalAt
        (c1 :: c2 :: c3 :: '-' :: (ds ++ post)) with
    | some m => simp
    | none => rw [hm] at hcomp; cases hcomp
  | cons c pre2 ih =>
    simp only [List.cons_append, searchCanonical]
    cases hm : matchCanonicalAt (c :: (pre2 ++ (tok ++ post))) with
    | some m => simp
    | none => exact ih

/-- C5: whenever the text contains a canonical `ORD-` token of 4 to 6
digits (any letter case, anywhere), `extract_order_id` returns the
upper-casing of a canonical token occurring in the text — pattern 1 wins,
so bare numbers or keyword-adjacent numbers appearing earlier never
displace it. -/
theorem c5_canonical_wins (text pre tok post : List Char)
    (hsplit : text = pre ++ tok ++ post) (htok : IsCanonicalToken tok) :
    ∃ pre2 tok2 post2, text = pre2 ++ tok2 ++ post2 ∧
      IsCanonicalToken tok2 ∧
      extract_order_id text = some (String.mk (tok2.map upperChar)) := by
  have hsome : (searchCanonical text).isSome = true := by
    rw [hsplit, List.append_assoc]
    exact searchCanonical_complete pre post htok
  cases hm : searchCanonical text with
  | none => rw [hm] at hsome; cases hsome
  | some m =>
    obtain ⟨hc, pre2, post2, heq⟩ := searchCanonical_sound hm
    refine ⟨pre2, m, post2, heq, hc, ?_⟩
    simp only [extract_order_id]
    rw [hm]

/-- C5 witness: a bare standalone number occurs before the canonical
lower-case token, yet extraction returns the canonical match uppercased. -/
theorem c5_canonical_wins_witness :
    ∃ pre2 tok2 post2,
      "pay 1234 then ord-84315 thanks".data = pre2 ++ tok2 ++ post2 ∧
      IsCanonicalToken tok2 ∧
      extract_order_id "pay 1234 then ord-84315 thanks".data
        = some (String.mk (tok2.map upperChar)) :=
  c5_canonical_wins "pay 1234 then ord-84315 thanks".data
    "pay 1234 then ".data "ord-84315".data " thanks".data (by decide)
    ⟨'o', 'r', 'd', "84315".data, by decide, by decide, by decide,
      by decide, by decide, by decide, by decide⟩

end RefundAgent
